import Mathlib

/-!
Shallow embedding of the spiritBE backend (src/index.js and the Firestore
wrapper module) for checking the natural-language specification.

Modelling conventions:
- The Firestore document database is a pure value of type DB: an association
  list of user documents keyed by the caller-supplied user id, plus
  append-only lists of image and transaction documents. Store-assigned
  document ids are modelled by a monotone counter DB.nextId.
- A user document carries only its credits field (Option Int: none models an
  absent field, matching the JS falsy check on user.credits); the other
  caller-supplied fields and the timestamps never influence control flow.
- JS numbers are Int, JS strings are String; an absent or empty string field
  is the empty string (both are falsy in the JS checks concerned).
- External collaborators are parameters: the HMAC-SHA256 hex digest is an
  abstract function argument (the handler only ever compares its output for
  string equality), the vision model output is a String argument, and the
  image-generation call outcome is a GenOutcome argument. The AI provider
  calls a handler actually performs are returned as an explicit trace.
- The sharp normalization step never terminates the request in the source
  (its error path falls back to the original buffer, and the 400 branch is
  guarded by a buffer that is always non-empty there), so it is not modelled.
-/

namespace SpiritBE

/-! Data model (Firestore documents, src/unnamed/part_000). -/

/-- A user document. Only the credits field is control-flow relevant; none
models a document without a stored credits field. -/
structure UserDoc where
  credits : Option Int
  deriving DecidableEq

/-- An image document as written by saveGeneratedImage in src/index.js. -/
structure ImageDoc where
  id : Nat
  userId : String
  prompt : String
  enhancedPrompt : String
  imageDescription : String
  originalImageUrl : String
  style : String
  detailLevel : Int
  imageUrl : String
  deriving DecidableEq

/-- A transaction document; txType models the JS field named type. Optional
fields are absent on the shapes that do not set them. -/
structure TxDoc where
  id : Nat
  userId : String
  orderId : Option String
  paymentId : Option String
  amount : Option Int
  credits : Int
  txType : String
  imageId : Option Nat
  prompt : Option String
  deriving DecidableEq

/-- The document store: users keyed by id, append-only images and
transactions (newest first, matching the descending createdAt queries), and
a counter standing in for store-assigned document ids. -/
structure DB where
  users : List (String × UserDoc)
  images : List ImageDoc
  transactions : List TxDoc
  nextId : Nat
  deriving DecidableEq

/-! Firestore wrapper operations (src/unnamed/part_000). -/

/-- getUserById: point lookup, absent is not an error. -/
def getUserById (db : DB) (userId : String) : Option UserDoc :=
  db.users.lookup userId

/-- Replace the document stored under a key (updateDoc on an existing doc). -/
def replaceUser : List (String × UserDoc) → String → UserDoc → List (String × UserDoc)
  | [], _, _ => []
  | (k, w) :: t, id, u => (if k = id then (id, u) else (k, w)) :: replaceUser t id u

/-- createOrUpdateUser: upsert by id (timestamps not modelled). -/
def createOrUpdateUser (db : DB) (id : String) (data : UserDoc) : DB :=
  if (db.users.lookup id).isSome then
    { db with users := replaceUser db.users id data }
  else
    { db with users := (id, data) :: db.users }

/-- updateUserCredits: read-modify-write of the credits field. Returns none
when the user does not exist (the JS function throws). The current balance
is (userData.credits or 0), i.e. 0 when the field is absent or stores 0. -/
def updateUserCredits (db : DB) (userId : String) (credits : Int) :
    Option (Int × DB) :=
  match db.users.lookup userId with
  | none => none
  | some u =>
    let updatedCredits := u.credits.getD 0 + credits
    some (updatedCredits,
      { db with users := replaceUser db.users userId ⟨some updatedCredits⟩ })

/-- Field content of an image document before the store assigns an id. -/
structure ImageData where
  userId : String
  prompt : String
  enhancedPrompt : String
  imageDescription : String
  originalImageUrl : String
  style : String
  detailLevel : Int
  imageUrl : String
  deriving DecidableEq

/-- saveGeneratedImage: addDoc with a store-assigned id. -/
def saveGeneratedImage (db : DB) (d : ImageData) : ImageDoc × DB :=
  let img : ImageDoc :=
    { id := db.nextId
      userId := d.userId
      prompt := d.prompt
      enhancedPrompt := d.enhancedPrompt
      imageDescription := d.imageDescription
      originalImageUrl := d.originalImageUrl
      style := d.style
      detailLevel := d.detailLevel
      imageUrl := d.imageUrl }
  (img, { db with images := img :: db.images, nextId := db.nextId + 1 })

/-- Field content of a transaction document before the store assigns an id. -/
structure TxData where
  userId : String
  orderId : Option String
  paymentId : Option String
  amount : Option Int
  credits : Int
  txType : String
  imageId : Option Nat
  prompt : Option String
  deriving DecidableEq

/-- saveTransaction: addDoc with a store-assigned id. -/
def saveTransaction (db : DB) (d : TxData) : TxDoc × DB :=
  let tx : TxDoc :=
    { id := db.nextId
      userId := d.userId
      orderId := d.orderId
      paymentId := d.paymentId
      amount := d.amount
      credits := d.credits
      txType := d.txType
      imageId := d.imageId
      prompt := d.prompt }
  (tx, { db with transactions := tx :: db.transactions, nextId := db.nextId + 1 })

/-- The effective credit balance of a user: the stored credits field, with 0
for an absent field or an absent user (matching how every credit computation
in the source reads the field). -/
def userBalance (db : DB) (userId : String) : Int :=
  ((getUserById db userId).bind UserDoc.credits).getD 0

/-! POST /api/create-order (src/index.js lines 170-197). -/

/-- Request body of /api/create-order; none models an absent JSON field. -/
structure CreateOrderRequest where
  price : Option Int
  userId : Option String
  credits : Option Int
  deriving DecidableEq

/-- The options object submitted to razorpay.orders.create. amount none
models the NaN produced by multiplying an absent price; the receipt string
is not modelled (a timestamp). -/
structure OrderOptions where
  amount : Option Int
  currency : String
  notesUserId : Option String
  notesCredits : Option Int
  deriving DecidableEq

/-- Result of the create-order handler: whether the payment provider was
invoked, with which options, and the HTTP status. -/
structure CreateOrderResult where
  status : Nat
  providerCalled : Bool
  options : Option OrderOptions
  deriving DecidableEq

/-- The /api/create-order handler. It performs no field-presence validation:
it always builds the options object and calls razorpay.orders.create. The
providerOk argument abstracts whether that provider call succeeds (a failure
is caught and answered with status 500). -/
def createOrder (providerOk : Bool) (req : CreateOrderRequest) :
    CreateOrderResult :=
  let options : OrderOptions :=
    { amount := req.price.map (fun p => p * 100)
      currency := "INR"
      notesUserId := req.userId
      notesCredits := req.credits }
  if providerOk then
    { status := 200, providerCalled := true, options := some options }
  else
    { status := 500, providerCalled := true, options := some options }

/-! POST /api/verify-payment (src/index.js lines 200-256). -/

/-- Request body of /api/verify-payment. The empty userId models an absent
or empty field (both falsy in the JS check). -/
structure VerifyRequest where
  razorpay_order_id : String
  razorpay_payment_id : String
  razorpay_signature : String
  credits : Int
  userId : String
  amount : Option Int
  deriving DecidableEq

/-- Result of the verify-payment handler. -/
structure VerifyResult where
  status : Nat
  success : Bool
  creditsOut : Option Int
  db : DB
  deriving DecidableEq

/-- The /api/verify-payment handler. hmacHex abstracts the hex HMAC-SHA256
digest (crypto.createHmac; the handler only compares its output for string
equality), applied to the server secret and the message
orderId ++ "|" ++ paymentId exactly as in the source. -/
def verifyPayment (hmacHex : String → String → String) (secret : String)
    (req : VerifyRequest) (db : DB) : VerifyResult :=
  if req.userId = "" then
    { status := 400, success := false, creditsOut := none, db := db }
  else
    let generatedSignature :=
      hmacHex secret (req.razorpay_order_id ++ "|" ++ req.razorpay_payment_id)
    if generatedSignature = req.razorpay_signature then
      let db1 :=
        match getUserById db req.userId with
        | some _ => db
        | none => createOrUpdateUser db req.userId ⟨some 0⟩
      match updateUserCredits db1 req.userId req.credits with
      | none => { status := 500, success := false, creditsOut := none, db := db1 }
      | some (updatedCredits, db2) =>
        let (_, db3) := saveTransaction db2
          { userId := req.userId
            orderId := some req.razorpay_order_id
            paymentId := some req.razorpay_payment_id
            amount := some (req.amount.getD 0)
            credits := req.credits
            txType := "purchase"
            imageId := none
            prompt := none }
        { status := 200, success := true, creditsOut := some updatedCredits, db := db3 }
    else
      { status := 400, success := false, creditsOut := none, db := db }

/-! POST /api/upload-image (src/index.js lines 16-40 and 259-667). -/

/-- An uploaded file: its original filename and its size in bytes. The byte
content itself is only ever forwarded (base64) to the vision model, never
inspected, so it is not modelled beyond its size. -/
structure FileUpload where
  originalname : String
  bufferSize : Nat
  deriving DecidableEq

/-- Request to /api/upload-image. Empty strings model absent (falsy) body
fields; detailLevel none models an absent field. -/
structure UploadRequest where
  userId : String
  prompt : String
  style : String
  detailLevel : Option Int
  file : Option FileUpload
  deriving DecidableEq

/-- The AI provider calls a request actually performs, in order: the vision
(describe) call and the image-generation call carrying its prompt string. -/
inductive ExtCall where
  | vision
  | generate (prompt : String)
  deriving DecidableEq

/-- Outcome of the openai.images.generate call: apiError models a thrown
provider error (invalidInputImage abstracts whether its message includes
the text Invalid input image); response carries the result URL, none when
the response lacks one. -/
inductive GenOutcome where
  | apiError (invalidInputImage : Bool)
  | response (url : Option String)
  deriving DecidableEq

/-- Result of the upload-image handler: HTTP status, the error message of
the JSON body when present, the credits field of a success body, the store
afterwards, and the trace of AI provider calls made. -/
structure UploadResult where
  status : Nat
  errorMsg : Option String
  creditsOut : Option Int
  db : DB
  calls : List ExtCall
  deriving DecidableEq

/-- JS String.prototype.endsWith, as a suffix test on the character list. -/
def jsEndsWith (s suf : String) : Bool :=
  suf.data.isSuffixOf s.data

/-- JS String.prototype.startsWith, testing that the second character list opens the first. -/
def jsStartsWith (s t : String) : Bool :=
  t.data.isPrefixOf s.data

/-- JS String.prototype.trim: strip whitespace from both ends. -/
def jsTrim (s : String) : String :=
  String.mk ((s.data.dropWhile Char.isWhitespace).reverse.dropWhile
    Char.isWhitespace).reverse

/-- multer file-size ceiling: 4 * 1024 * 1024 bytes. -/
def maxFileSize : Nat := 4 * 1024 * 1024

/-- The multer fileFilter regex: the original filename must end in .jpg,
.jpeg or .png (case-sensitive, as in the source regex). -/
def acceptedFilename (name : String) : Bool :=
  jsEndsWith name ".jpg" || jsEndsWith name ".jpeg" || jsEndsWith name ".png"

/-- The entitlement check on the stored credits field:
not user.credits, or user.credits < 1. -/
def creditsInsufficient (credits : Option Int) : Bool :=
  match credits with
  | none => true
  | some c => if c = 0 ∨ c < 1 then true else false

/-- JS (s or fallback) for string fields: the empty string is falsy. -/
def jsStrOr (s fallback : String) : String :=
  if s = "" then fallback else s

/-- JS (v or fallback) for numeric fields: absent and 0 are falsy. -/
def jsNumOr (v : Option Int) (fallback : Int) : Int :=
  match v with
  | none => fallback
  | some d => if d = 0 then fallback else d

/-- The known vision-model refusal opening checked with startsWith. -/
def visionRefusalText : String :=
  "I\x27m unable to analyze the image in detail as requested"

/-- The default user prompt used when the prompt field is falsy. -/
def defaultUserPrompt : String := "Transform this image into Studio Ghibli style"

/-- The property names every plain JS object literal inherits from
Object.prototype: a bracket lookup of one of these on the styleGuide object
finds a truthy inherited member instead of undefined. -/
def objectProtoMembers : List String :=
  ["constructor", "hasOwnProperty", "isPrototypeOf", "propertyIsEnumerable",
   "toLocaleString", "toString", "valueOf", "__defineGetter__",
   "__defineSetter__", "__lookupGetter__", "__lookupSetter__", "__proto__"]

/-- The styleGuide object lookup with JS bracket-lookup semantics: one of
the four own properties when the key is a known style; otherwise, for the
property names inherited from Object.prototype, the truthy inherited member
(recorded here as the text the template literal stringifies it to: the
native-function source text, the constructor being the Object function, and
the __proto__ accessor yielding Object.prototype, which stringifies as
[object Object]); undefined (none) for every other key. -/
def styleGuide (style : String) : Option String :=
  if style = "ghibli-nature" then
    some "Create a Studio Ghibli artwork in Hayao Miyazaki\x27s distinctive style showing the exact same scene with hand-painted textures, soft pastel colors, and dreamy atmosphere like in \"My Neighbor Totoro\" or \"Princess Mononoke\""
  else if style = "ghibli-character" then
    some "Create a Studio Ghibli artwork in Hayao Miyazaki\x27s distinctive style showing the exact same scene with simple rounded features, expressive eyes, and soft colors like in \"Spirited Away\" or \"Kiki\x27s Delivery Service\""
  else if style = "ghibli-cityscape" then
    some "Create a Studio Ghibli artwork in Hayao Miyazaki\x27s distinctive style showing the exact same scene with detailed architecture, warm lighting, and nostalgic atmosphere like in \"Whisper of the Heart\" or \"From Up On Poppy Hill\""
  else if style = "ghibli-fantasy" then
    some "Create a Studio Ghibli artwork in Hayao Miyazaki\x27s distinctive style showing the exact same scene with magical elements, whimsical creatures, and ethereal lighting like in \"Spirited Away\" or \"Howl\x27s Moving Castle\""
  else if style = "constructor" then
    some "function Object() \x7b [native code] \x7d"
  else if style = "__proto__" then
    some "[object Object]"
  else if style ∈ objectProtoMembers then
    some ("function " ++ style ++ "() \x7b [native code] \x7d")
  else none

/-- MAX_PROMPT_LENGTH from the source; the overflow against it is computed
for a log line only, the truncation statement being commented out. -/
def MAX_PROMPT_LENGTH : Nat := 950

/-- The finalPrompt composition of src/index.js lines 484-509: fixed
preamble, the vision description when truthy, the style template with the
ghibli-nature fallback for unknown keys, then the user instruction when the
prompt field is truthy and non-blank. -/
def composeFinalPrompt (imageDescription promptField style : String) : String :=
  let userPrompt := jsStrOr promptField defaultUserPrompt
  let p1 := "I want you to create a Studio Ghibli style artwork by Hayao Miyazaki based on this image description. "
  let p2 :=
    if imageDescription = "" then p1
    else p1 ++ "The image shows: " ++ imageDescription ++ " "
  let p3 := p2 ++ (styleGuide style).getD ((styleGuide "ghibli-nature").getD "") ++ ". "
  if promptField ≠ "" ∧ jsTrim promptField ≠ "" then p3 ++ userPrompt ++ ". " else p3

/-- The route handler body of /api/upload-image (after the multer
middleware), with the vision output and the generation outcome supplied as
oracle arguments and fileUrl the computed public URL of the temporary copy
of the upload. -/
def uploadImageRoute (req : UploadRequest) (db : DB) (visionOutput : String)
    (gen : GenOutcome) (fileUrl : String) : UploadResult :=
  if req.userId = "" then
    { status := 400, errorMsg := some "User ID is required",
      creditsOut := none, db := db, calls := [] }
  else
    match req.file with
    | none =>
      { status := 400,
        errorMsg := some "No image file was uploaded. Please select an image to transform.",
        creditsOut := none, db := db, calls := [] }
    | some f =>
      if f.bufferSize = 0 then
        { status := 400,
          errorMsg := some "The uploaded file is empty. Please select a valid image.",
          creditsOut := none, db := db, calls := [] }
      else
        match getUserById db req.userId with
        | none =>
          { status := 404, errorMsg := some "User not found",
            creditsOut := none, db := db, calls := [] }
        | some user =>
          if creditsInsufficient user.credits then
            { status := 400, errorMsg := some "Not enough credits",
              creditsOut := none, db := db, calls := [] }
          else
            let imageDescription := visionOutput
            if jsStartsWith imageDescription visionRefusalText then
              { status := 400,
                errorMsg := some "Our AI system could not properly analyze your image. Please try a different image with clearer content.",
                creditsOut := none, db := db, calls := [ExtCall.vision] }
            else
              let finalPrompt := composeFinalPrompt imageDescription req.prompt req.style
              match gen with
              | GenOutcome.apiError invalidInputImage =>
                if invalidInputImage then
                  { status := 400,
                    errorMsg := some "The image format is not compatible with our AI system. Please try a different image.",
                    creditsOut := none, db := db,
                    calls := [ExtCall.vision, ExtCall.generate finalPrompt] }
                else
                  { status := 500,
                    errorMsg := some "Error generating image with AI. Please try again or use a different image.",
                    creditsOut := none, db := db,
                    calls := [ExtCall.vision, ExtCall.generate finalPrompt] }
              | GenOutcome.response none =>
                { status := 500,
                  errorMsg := some "Failed to generate image. The AI service returned an invalid response.",
                  creditsOut := none, db := db,
                  calls := [ExtCall.vision, ExtCall.generate finalPrompt] }
              | GenOutcome.response (some imageUrl) =>
                match updateUserCredits db req.userId (-1) with
                | none =>
                  { status := 500, errorMsg := some "An unknown error occurred",
                    creditsOut := none, db := db,
                    calls := [ExtCall.vision, ExtCall.generate finalPrompt] }
                | some (updatedCredits, db1) =>
                  let userPrompt := jsStrOr req.prompt defaultUserPrompt
                  let (savedImage, db2) := saveGeneratedImage db1
                    { userId := req.userId
                      prompt := userPrompt
                      enhancedPrompt := finalPrompt
                      imageDescription := imageDescription
                      originalImageUrl := fileUrl
                      style := jsStrOr req.style "ghibli-nature"
                      detailLevel := jsNumOr req.detailLevel 50
                      imageUrl := imageUrl }
                  let (_, db3) := saveTransaction db2
                    { userId := req.userId
                      orderId := none
                      paymentId := none
                      amount := none
                      credits := -1
                      txType := "image-transformation"
                      imageId := some savedImage.id
                      prompt := some userPrompt }
                  { status := 200, errorMsg := none,
                    creditsOut := some updatedCredits, db := db3,
                    calls := [ExtCall.vision, ExtCall.generate finalPrompt] }

/-- The full /api/upload-image endpoint: the multer middleware (fileFilter
on the filename, then the 4 MiB size limit) rejects with 400 before the
route handler runs; otherwise the route handler body executes. -/
def uploadImage (req : UploadRequest) (db : DB) (visionOutput : String)
    (gen : GenOutcome) (fileUrl : String) : UploadResult :=
  match req.file with
  | some f =>
    if acceptedFilename f.originalname = false then
      { status := 400,
        errorMsg := some "File upload error: Only JPG and PNG files are allowed!",
        creditsOut := none, db := db, calls := [] }
    else if f.bufferSize > maxFileSize then
      { status := 400, errorMsg := some "File upload error: File too large",
        creditsOut := none, db := db, calls := [] }
    else uploadImageRoute req db visionOutput gen fileUrl
  | none => uploadImageRoute req db visionOutput gen fileUrl

/-! Concrete inputs used to instantiate the theorems below. -/

/-- An empty store. -/
def dbEmpty : DB := { users := [], images := [], transactions := [], nextId := 0 }

/-- A store holding one user u with 1 credit. -/
def dbOne : DB :=
  { users := [("u", ⟨some 1⟩)], images := [], transactions := [], nextId := 7 }

/-- A store holding one user z whose document has no credits field. -/
def dbNoCredits : DB :=
  { users := [("z", ⟨none⟩)], images := [], transactions := [], nextId := 0 }

/-- A store holding one user v with 0 stored credits. -/
def dbZero : DB :=
  { users := [("v", ⟨some 0⟩)], images := [], transactions := [], nextId := 0 }

/-- A well-formed uploaded file. -/
def fileGood : FileUpload := { originalname := "cat.jpg", bufferSize := 100 }

/-- A well-formed upload request for user u. -/
def reqGood : UploadRequest :=
  { userId := "u", prompt := "", style := "", detailLevel := none, file := some fileGood }

/-- A toy digest function for closed instantiations; the verify-payment
handler never inspects the digest function, it only compares its output. -/
def hmToy : String → String → String := fun _ m => m

/-- A verify-payment request whose signature equals hmToy of the secret and
of the message built from its order and payment ids, with userId u. -/
def vreqOk : VerifyRequest :=
  { razorpay_order_id := "o1", razorpay_payment_id := "p1",
    razorpay_signature := "o1|p1", credits := 5, userId := "u", amount := none }

/-- The same request with a signature that matches nothing hmToy outputs. -/
def vreqBad : VerifyRequest :=
  { razorpay_order_id := "o1", razorpay_payment_id := "p1",
    razorpay_signature := "x", credits := 5, userId := "u", amount := none }

/-- A verify-payment request with a matching signature but no userId. -/
def vreqNoUser : VerifyRequest :=
  { razorpay_order_id := "o1", razorpay_payment_id := "p1",
    razorpay_signature := "o1|p1", credits := 5, userId := "", amount := none }

/-- A 700-character vision description, long enough to push the composed
prompt past MAX_PROMPT_LENGTH. -/
def longDescription : String := String.mk (List.replicate 700 'a')

/-- The composed prompt of the C4 witness run. -/
def c4Prompt : String := composeFinalPrompt longDescription "" ""

/-! Helper lemmas about the store operations. -/

/-- Replacing the document under a present key is seen by a later lookup of
that key. -/
theorem lookup_replaceUser_self (users : List (String × UserDoc)) (id : String)
    (u : UserDoc) (h : (users.lookup id).isSome) :
    (replaceUser users id u).lookup id = some u := by
  induction users with
  | nil => simp [List.lookup] at h
  | cons p t ih =>
    obtain ⟨k, w⟩ := p
    by_cases hk : k = id
    · subst hk
      simp only [replaceUser, if_pos rfl]
      simp [List.lookup]
    · have hne : (id == k) = false := by
        simp only [beq_eq_false_iff_ne, ne_eq]
        exact fun hh => hk hh.symm
      simp only [List.lookup, hne] at h
      simp only [replaceUser, if_neg hk]
      simp only [List.lookup, hne]
      exact ih h

/-! Helper lemmas: every intake failure of /api/upload-image yields a 400
response, no AI provider call, and an unchanged store. -/

/-- A request with a falsy userId is answered 400 with no calls and no
store change, whatever the file looks like. -/
theorem upload_noUserId (prompt style : String) (dl : Option Int)
    (file : Option FileUpload) (db : DB) (v : String) (g : GenOutcome) (u : String) :
    (uploadImage ⟨"", prompt, style, dl, file⟩ db v g u).status = 400 ∧
    (uploadImage ⟨"", prompt, style, dl, file⟩ db v g u).calls = [] ∧
    (uploadImage ⟨"", prompt, style, dl, file⟩ db v g u).db = db := by
  cases file with
  | none => simp [uploadImage, uploadImageRoute]
  | some f =>
    by_cases h1 : acceptedFilename f.originalname = false
    · simp [uploadImage, h1]
    · by_cases h2 : f.bufferSize > maxFileSize
      · simp [uploadImage, h1, h2]
      · simp [uploadImage, uploadImageRoute, h1, h2]

/-- A request with no file is answered 400 with no calls and no store
change. -/
theorem upload_noFile (uid prompt style : String) (dl : Option Int)
    (db : DB) (v : String) (g : GenOutcome) (u : String) :
    (uploadImage ⟨uid, prompt, style, dl, none⟩ db v g u).status = 400 ∧
    (uploadImage ⟨uid, prompt, style, dl, none⟩ db v g u).calls = [] ∧
    (uploadImage ⟨uid, prompt, style, dl, none⟩ db v g u).db = db := by
  by_cases h : uid = "" <;> simp [uploadImage, uploadImageRoute, h]

/-- A request whose filename the multer filter rejects is answered 400 with
no calls and no store change. -/
theorem upload_badFilename (uid prompt style : String) (dl : Option Int)
    (f : FileUpload) (hf : acceptedFilename f.originalname = false)
    (db : DB) (v : String) (g : GenOutcome) (u : String) :
    (uploadImage ⟨uid, prompt, style, dl, some f⟩ db v g u).status = 400 ∧
    (uploadImage ⟨uid, prompt, style, dl, some f⟩ db v g u).calls = [] ∧
    (uploadImage ⟨uid, prompt, style, dl, some f⟩ db v g u).db = db := by
  simp [uploadImage, hf]

/-- A request whose file exceeds the multer size ceiling is answered 400
with no calls and no store change. -/
theorem upload_tooLarge (uid prompt style : String) (dl : Option Int)
    (f : FileUpload) (hf : f.bufferSize > maxFileSize)
    (db : DB) (v : String) (g : GenOutcome) (u : String) :
    (uploadImage ⟨uid, prompt, style, dl, some f⟩ db v g u).status = 400 ∧
    (uploadImage ⟨uid, prompt, style, dl, some f⟩ db v g u).calls = [] ∧
    (uploadImage ⟨uid, prompt, style, dl, some f⟩ db v g u).db = db := by
  by_cases h1 : acceptedFilename f.originalname = false
  · simp [uploadImage, h1]
  · simp [uploadImage, h1, hf]

/-- A request whose file buffer is empty is answered 400 with no calls and
no store change. -/
theorem upload_emptyBuffer (uid prompt style : String) (dl : Option Int)
    (f : FileUpload) (hf : f.bufferSize = 0)
    (db : DB) (v : String) (g : GenOutcome) (u : String) :
    (uploadImage ⟨uid, prompt, style, dl, some f⟩ db v g u).status = 400 ∧
    (uploadImage ⟨uid, prompt, style, dl, some f⟩ db v g u).calls = [] ∧
    (uploadImage ⟨uid, prompt, style, dl, some f⟩ db v g u).db = db := by
  by_cases h1 : acceptedFilename f.originalname = false
  · simp [uploadImage, h1]
  · by_cases h2 : uid = "" <;>
      simp [uploadImage, uploadImageRoute, h1, h2, hf, maxFileSize]

/-! Claim theorems. -/

/-- Claim C5: for every create-order request with price, userId, and
credits present, the options submitted to the payment provider carry amount
price * 100, the fixed currency INR, and the userId and credits as notes;
the provider is invoked. -/
theorem c5_create_order_submission (providerOk : Bool) (price : Int)
    (userId : String) (credits : Int) :
    (createOrder providerOk ⟨some price, some userId, some credits⟩).options =
      some ⟨some (price * 100), "INR", some userId, some credits⟩ ∧
    (createOrder providerOk ⟨some price, some userId, some credits⟩).providerCalled
      = true := by
  cases providerOk <;> simp [createOrder]

/-- Claim C6 counterexample: POST /api/create-order performs no
field-presence validation: with price, userId and credits all absent it
still invokes the payment provider and does not answer 400. -/
theorem c6_create_order_cex :
    (createOrder true ⟨none, none, none⟩).providerCalled = true ∧
    (createOrder true ⟨none, none, none⟩).status = 200 := by
  constructor <;> rfl

/-- Claim C6 as amended: POST /api/create-order performs no field-presence
validation (it always invokes the payment provider, never answering 400),
while the POST handlers verify-payment and upload-image do check their
required userId field and answer 400 with no state change and no provider
call when it is missing. -/
theorem c6_field_validation_amended (providerOk : Bool) (db : DB)
    (hm : String → String → String) (secret o p sig : String) (credits : Int)
    (amount : Option Int) (prompt style : String) (dl : Option Int)
    (file : Option FileUpload) (v : String) (g : GenOutcome) (u : String) :
    (createOrder providerOk ⟨none, none, none⟩).providerCalled = true ∧
    (createOrder providerOk ⟨none, none, none⟩).status ≠ 400 ∧
    (verifyPayment hm secret ⟨o, p, sig, credits, "", amount⟩ db).status = 400 ∧
    (verifyPayment hm secret ⟨o, p, sig, credits, "", amount⟩ db).db = db ∧
    (uploadImage ⟨"", prompt, style, dl, file⟩ db v g u).status = 400 ∧
    (uploadImage ⟨"", prompt, style, dl, file⟩ db v g u).calls = [] ∧
    (uploadImage ⟨"", prompt, style, dl, file⟩ db v g u).db = db := by
  obtain ⟨w1, w2, w3⟩ := upload_noUserId prompt style dl file db v g u
  refine ⟨?_, ?_, ?_, ?_, w1, w2, w3⟩
  · cases providerOk <;> rfl
  · cases providerOk <;> simp [createOrder]
  · simp [verifyPayment]
  · simp [verifyPayment]

/-- Claim C8 counterexample: the style key toString is not one of the four
known keys, yet it does not compose the same final prompt as the default
style: the JS bracket lookup finds the inherited, truthy
Object.prototype.toString, so the fallback to ghibli-nature is bypassed and
the stringified native function enters the prompt instead. -/
theorem c8_style_fallback_cex :
    "toString" ∉ ["ghibli-nature", "ghibli-character", "ghibli-cityscape",
      "ghibli-fantasy"] ∧
    composeFinalPrompt "A hill." "make it blue" "toString" ≠
      composeFinalPrompt "A hill." "make it blue" "ghibli-nature" := by
  exact ⟨by decide, by set_option maxRecDepth 10000 in decide⟩

/-- Claim C8 as amended: an upload-image request whose style key is neither
one of the four known keys nor the name of a member inherited from
Object.prototype composes exactly the same final prompt as one with the
default key ghibli-nature, for any fixed vision description and user
prompt. -/
theorem c8_style_fallback (style : String)
    (h : style ∉ ["ghibli-nature", "ghibli-character", "ghibli-cityscape",
      "ghibli-fantasy"])
    (hp : style ∉ objectProtoMembers)
    (imageDescription promptField : String) :
    composeFinalPrompt imageDescription promptField style =
      composeFinalPrompt imageDescription promptField "ghibli-nature" := by
  simp only [List.mem_cons, List.not_mem_nil, or_false, not_or] at h
  obtain ⟨h1, h2, h3, h4⟩ := h
  simp only [objectProtoMembers, List.mem_cons, List.not_mem_nil, or_false,
    not_or] at hp
  obtain ⟨p1, p2, p3, p4, p5, p6, p7, p8, p9, p10, p11, p12⟩ := hp
  simp [composeFinalPrompt, styleGuide, objectProtoMembers, h1, h2, h3, h4,
    p1, p2, p3, p4, p5, p6, p7, p8, p9, p10, p11, p12]

/-- Claim C8 witness at the unknown, non-inherited key watercolor. -/
theorem c8_style_fallback_witness :
    "watercolor" ∉ ["ghibli-nature", "ghibli-character", "ghibli-cityscape",
      "ghibli-fantasy"] ∧
    "watercolor" ∉ objectProtoMembers ∧
    composeFinalPrompt "A hill." "make it blue" "watercolor" =
      composeFinalPrompt "A hill." "make it blue" "ghibli-nature" :=
  ⟨by decide, by decide,
    c8_style_fallback "watercolor" (by decide) (by decide) "A hill."
      "make it blue"⟩

/-- Claim C9: an upload-image request with a missing user identifier, an
absent file, an empty file buffer, a file over the 4 MiB ceiling, or an
original filename not ending in .jpg, .jpeg or .png is answered 400 before
any AI provider call, with the store unchanged. -/
theorem c9_intake_rejections (uid prompt style : String) (dl : Option Int)
    (file : Option FileUpload) (db : DB) (v : String) (g : GenOutcome) (u : String)
    (h : uid = "" ∨ file = none ∨
      ∃ f, file = some f ∧
        (f.bufferSize = 0 ∨ f.bufferSize > maxFileSize ∨
          acceptedFilename f.originalname = false)) :
    (uploadImage ⟨uid, prompt, style, dl, file⟩ db v g u).status = 400 ∧
    (uploadImage ⟨uid, prompt, style, dl, file⟩ db v g u).calls = [] ∧
    (uploadImage ⟨uid, prompt, style, dl, file⟩ db v g u).db = db := by
  rcases h with h | h | ⟨f, hf, h⟩
  · subst h; exact upload_noUserId prompt style dl file db v g u
  · subst h; exact upload_noFile uid prompt style dl db v g u
  · subst hf
    rcases h with h | h | h
    · exact upload_emptyBuffer uid prompt style dl f h db v g u
    · exact upload_tooLarge uid prompt style dl f h db v g u
    · exact upload_badFilename uid prompt style dl f h db v g u

/-- Claim C9 witness at a request whose file has a rejected extension. -/
theorem c9_intake_rejections_witness :
    (uploadImage ⟨"u", "", "", none, some ⟨"cat.gif", 9⟩⟩ dbOne "d"
        (GenOutcome.response (some "r")) "f").status = 400 ∧
    (uploadImage ⟨"u", "", "", none, some ⟨"cat.gif", 9⟩⟩ dbOne "d"
        (GenOutcome.response (some "r")) "f").calls = [] ∧
    (uploadImage ⟨"u", "", "", none, some ⟨"cat.gif", 9⟩⟩ dbOne "d"
        (GenOutcome.response (some "r")) "f").db = dbOne :=
  c9_intake_rejections "u" "" "" none (some ⟨"cat.gif", 9⟩) dbOne "d"
    (GenOutcome.response (some "r")) "f"
    (Or.inr (Or.inr ⟨⟨"cat.gif", 9⟩, rfl, Or.inr (Or.inr (by decide))⟩))

/-- Claim C3: for an upload-image request with a valid file and userId, an
absent user record is answered 404 and a stored credit balance below 1 is
answered 400; in both cases no AI call is made and no user, image, or
transaction state changes. -/
theorem c3_entitlement_guards (uid prompt style : String) (dl : Option Int)
    (f : FileUpload) (db : DB) (v : String) (g : GenOutcome) (u : String)
    (hu : uid ≠ "") (hext : acceptedFilename f.originalname = true)
    (hsz : ¬ f.bufferSize > maxFileSize) (hnb : f.bufferSize ≠ 0) :
    (getUserById db uid = none →
      (uploadImage ⟨uid, prompt, style, dl, some f⟩ db v g u).status = 404 ∧
      (uploadImage ⟨uid, prompt, style, dl, some f⟩ db v g u).errorMsg =
        some "User not found" ∧
      (uploadImage ⟨uid, prompt, style, dl, some f⟩ db v g u).calls = [] ∧
      (uploadImage ⟨uid, prompt, style, dl, some f⟩ db v g u).db = db) ∧
    (∀ c : Int, getUserById db uid = some ⟨some c⟩ → c < 1 →
      (uploadImage ⟨uid, prompt, style, dl, some f⟩ db v g u).status = 400 ∧
      (uploadImage ⟨uid, prompt, style, dl, some f⟩ db v g u).errorMsg =
        some "Not enough credits" ∧
      (uploadImage ⟨uid, prompt, style, dl, some f⟩ db v g u).calls = [] ∧
      (uploadImage ⟨uid, prompt, style, dl, some f⟩ db v g u).db = db) := by
  constructor
  · intro hlk
    simp [uploadImage, uploadImageRoute, hext, hsz, hu, hnb, hlk]
  · intro c hlk hc
    have hins : creditsInsufficient (some c) = true := by
      simp [creditsInsufficient, hc]
    simp [uploadImage, uploadImageRoute, hext, hsz, hu, hnb, hlk, hins]

/-- Claim C3 witness: a run with an absent user (404) and a run with a
zero-credit user (400), both leaving the store unchanged. -/
theorem c3_entitlement_guards_witness :
    (uploadImage ⟨"nobody", "", "", none, some fileGood⟩ dbZero "d"
        (GenOutcome.response (some "r")) "f").status = 404 ∧
    (uploadImage ⟨"v", "", "", none, some fileGood⟩ dbZero "d"
        (GenOutcome.response (some "r")) "f").status = 400 ∧
    (uploadImage ⟨"v", "", "", none, some fileGood⟩ dbZero "d"
        (GenOutcome.response (some "r")) "f").db = dbZero :=
  ⟨((c3_entitlement_guards "nobody" "" "" none fileGood dbZero "d"
      (GenOutcome.response (some "r")) "f" (by decide) (by decide) (by decide)
      (by decide)).1 (by decide)).1,
   ((c3_entitlement_guards "v" "" "" none fileGood dbZero "d"
      (GenOutcome.response (some "r")) "f" (by decide) (by decide) (by decide)
      (by decide)).2 0 (by decide) (by decide)).1,
   ((c3_entitlement_guards "v" "" "" none fileGood dbZero "d"
      (GenOutcome.response (some "r")) "f" (by decide) (by decide) (by decide)
      (by decide)).2 0 (by decide) (by decide)).2.2.2⟩

/-- Claim C7: when the vision description starts with the known refusal
opening, the upload-image request is answered 400 with the could-not-analyze
message, only the vision call was made (no generation call), and no credit
is deducted (the store is unchanged). -/
theorem c7_vision_refusal (uid prompt style : String) (dl : Option Int)
    (f : FileUpload) (db : DB) (usr : UserDoc) (v : String) (g : GenOutcome)
    (u : String)
    (hu : uid ≠ "") (hext : acceptedFilename f.originalname = true)
    (hsz : ¬ f.bufferSize > maxFileSize) (hnb : f.bufferSize ≠ 0)
    (hlk : getUserById db uid = some usr)
    (hcr : creditsInsufficient usr.credits = false)
    (hv : jsStartsWith v visionRefusalText = true) :
    (uploadImage ⟨uid, prompt, style, dl, some f⟩ db v g u).status = 400 ∧
    (uploadImage ⟨uid, prompt, style, dl, some f⟩ db v g u).errorMsg =
      some "Our AI system could not properly analyze your image. Please try a different image with clearer content." ∧
    (uploadImage ⟨uid, prompt, style, dl, some f⟩ db v g u).calls =
      [ExtCall.vision] ∧
    (uploadImage ⟨uid, prompt, style, dl, some f⟩ db v g u).db = db := by
  simp [uploadImage, uploadImageRoute, hext, hsz, hu, hnb, hlk, hcr, hv]

/-- Claim C7 witness: a refusing vision output on a funded user aborts with
400, no generation call, store unchanged. -/
theorem c7_vision_refusal_witness :
    jsStartsWith visionRefusalText visionRefusalText = true ∧
    (uploadImage reqGood dbOne visionRefusalText
        (GenOutcome.response (some "r")) "f").status = 400 ∧
    (uploadImage reqGood dbOne visionRefusalText
        (GenOutcome.response (some "r")) "f").calls = [ExtCall.vision] ∧
    (uploadImage reqGood dbOne visionRefusalText
        (GenOutcome.response (some "r")) "f").db = dbOne := by
  have h := c7_vision_refusal "u" "" "" none fileGood dbOne ⟨some 1⟩
    visionRefusalText (GenOutcome.response (some "r")) "f" (by decide)
    (by decide) (by decide) (by decide) (by decide) (by decide) (by decide)
  exact ⟨by decide, h.1, h.2.2.1, h.2.2.2⟩

/-- Claim C10: when a stored user document has no credits field (or a falsy
stored 0), updateUserCredits treats the balance as 0 and returns exactly the
delta, and the upload-image entitlement check answers 400 Not enough credits
for that user. -/
theorem c10_falsy_credits (db : DB) (uid : String) (delta : Int)
    (usr : UserDoc) (hlk : getUserById db uid = some usr)
    (hc : usr.credits = none ∨ usr.credits = some 0)
    (prompt style : String) (dl : Option Int) (f : FileUpload) (v : String)
    (g : GenOutcome) (u : String)
    (hu : uid ≠ "") (hext : acceptedFilename f.originalname = true)
    (hsz : ¬ f.bufferSize > maxFileSize) (hnb : f.bufferSize ≠ 0) :
    (updateUserCredits db uid delta).map Prod.fst = some delta ∧
    (uploadImage ⟨uid, prompt, style, dl, some f⟩ db v g u).status = 400 ∧
    (uploadImage ⟨uid, prompt, style, dl, some f⟩ db v g u).errorMsg =
      some "Not enough credits" ∧
    (uploadImage ⟨uid, prompt, style, dl, some f⟩ db v g u).db = db := by
  have hins : creditsInsufficient usr.credits = true := by
    rcases hc with hc | hc <;> simp [creditsInsufficient, hc]
  have hget : usr.credits.getD 0 = 0 := by
    rcases hc with hc | hc <;> simp [hc]
  have hlk' : db.users.lookup uid = some usr := hlk
  refine ⟨?_, ?_⟩
  · simp [updateUserCredits, hlk', hget]
  · exact (And.intro
      (by simp [uploadImage, uploadImageRoute, hext, hsz, hu, hnb, hlk, hins])
      (And.intro
        (by simp [uploadImage, uploadImageRoute, hext, hsz, hu, hnb, hlk, hins])
        (by simp [uploadImage, uploadImageRoute, hext, hsz, hu, hnb, hlk, hins])))

/-- Claim C10 witness: a user document with no credits field gets exactly
the delta from updateUserCredits and a 400 from upload-image. -/
theorem c10_falsy_credits_witness :
    (updateUserCredits dbNoCredits "z" 9).map Prod.fst = some 9 ∧
    (uploadImage ⟨"z", "", "", none, some fileGood⟩ dbNoCredits "d"
        (GenOutcome.response (some "r")) "f").status = 400 ∧
    (uploadImage ⟨"z", "", "", none, some fileGood⟩ dbNoCredits "d"
        (GenOutcome.response (some "r")) "f").errorMsg =
      some "Not enough credits" := by
  have h := c10_falsy_credits dbNoCredits "z" 9 ⟨none⟩ (by decide)
    (Or.inl rfl) "" "" none fileGood "d" (GenOutcome.response (some "r")) "f"
    (by decide) (by decide) (by decide) (by decide)
  exact ⟨h.1, h.2.1, h.2.2.1⟩

/-- Claim C1 counterexample: a verify-payment request whose signature does
equal the digest of orderId | paymentId but whose userId is missing is
answered 400, not success (the handler checks userId before the signature).
The handler never inspects the digest function, so the toy digest stands in
for the real one. -/
theorem c1_missing_userId_cex :
    hmToy "secret" (vreqNoUser.razorpay_order_id ++ "|" ++
        vreqNoUser.razorpay_payment_id) = vreqNoUser.razorpay_signature ∧
    (verifyPayment hmToy "secret" vreqNoUser dbEmpty).status = 400 ∧
    (verifyPayment hmToy "secret" vreqNoUser dbEmpty).success = false := by
  exact ⟨by decide, by decide, by decide⟩

/-- Claim C1 as amended: for every verify-payment request with a nonempty
userId, a signature equal to the digest of orderId | paymentId under the
server secret yields success with the new balance, the user existing
afterwards (created at zero balance if absent), the balance increased by
exactly credits, and one purchase transaction recording the order and
payment ids appended; an unequal signature yields 400 with no state
change. -/
theorem c1_verify_payment_flow (hm : String → String → String)
    (secret o p sig : String) (credits : Int) (uid : String)
    (amount : Option Int) (db : DB) (hu : uid ≠ "") :
    (hm secret (o ++ "|" ++ p) = sig →
      (verifyPayment hm secret ⟨o, p, sig, credits, uid, amount⟩ db).status = 200 ∧
      (verifyPayment hm secret ⟨o, p, sig, credits, uid, amount⟩ db).success = true ∧
      (verifyPayment hm secret ⟨o, p, sig, credits, uid, amount⟩ db).creditsOut =
        some (userBalance db uid + credits) ∧
      (getUserById (verifyPayment hm secret ⟨o, p, sig, credits, uid, amount⟩ db).db
        uid).isSome = true ∧
      userBalance (verifyPayment hm secret ⟨o, p, sig, credits, uid, amount⟩ db).db
        uid = userBalance db uid + credits ∧
      (verifyPayment hm secret ⟨o, p, sig, credits, uid, amount⟩ db).db.images =
        db.images ∧
      (verifyPayment hm secret ⟨o, p, sig, credits, uid, amount⟩ db).db.transactions =
        ⟨db.nextId, uid, some o, some p, some (amount.getD 0), credits,
          "purchase", none, none⟩ :: db.transactions) ∧
    (hm secret (o ++ "|" ++ p) ≠ sig →
      (verifyPayment hm secret ⟨o, p, sig, credits, uid, amount⟩ db).status = 400 ∧
      (verifyPayment hm secret ⟨o, p, sig, credits, uid, amount⟩ db).success = false ∧
      (verifyPayment hm secret ⟨o, p, sig, credits, uid, amount⟩ db).db = db) := by
  constructor
  · intro hsig
    rcases hlk : db.users.lookup uid with _ | usr
    · simp [verifyPayment, hu, hsig, getUserById, hlk, createOrUpdateUser,
        updateUserCredits, List.lookup, replaceUser, saveTransaction,
        userBalance]
    · have hrep := lookup_replaceUser_self db.users uid
        ⟨some (usr.credits.getD 0 + credits)⟩ (by simp [hlk])
      simp [verifyPayment, hu, hsig, getUserById, hlk, updateUserCredits,
        saveTransaction, userBalance, hrep]
  · intro hsig
    simp [verifyPayment, hu, hsig]

/-- Claim C1 witness: a matching-signature run on a funded user succeeds
with the balance increased by 5, and a mismatching run is answered 400. -/
theorem c1_verify_payment_flow_witness :
    (verifyPayment hmToy "s" vreqOk dbOne).status = 200 ∧
    userBalance (verifyPayment hmToy "s" vreqOk dbOne).db "u" =
      userBalance dbOne "u" + 5 ∧
    (verifyPayment hmToy "s" vreqBad dbOne).status = 400 := by
  have h1 := (c1_verify_payment_flow hmToy "s" "o1" "p1" "o1|p1" 5 "u" none
    dbOne (by decide)).1 (by decide)
  have h2 := (c1_verify_payment_flow hmToy "s" "o1" "p1" "x" 5 "u" none
    dbOne (by decide)).2 (by decide)
  exact ⟨h1.1, h1.2.2.2.2.1, h2.1⟩

/-- Claim C4: whenever an upload-image request reaches the generation call,
the prompt it carries is exactly the composed final prompt, unmodified,
even when its length exceeds MAX_PROMPT_LENGTH (the overflow is only
logged; the truncation statement is inert). -/
theorem c4_prompt_sent_unmodified (uid prompt style : String) (dl : Option Int)
    (file : Option FileUpload) (db : DB) (v : String) (g : GenOutcome)
    (u q : String)
    (hq : ExtCall.generate q ∈
      (uploadImage ⟨uid, prompt, style, dl, file⟩ db v g u).calls)
    (hlen : (composeFinalPrompt v prompt style).length > MAX_PROMPT_LENGTH) :
    q = composeFinalPrompt v prompt style := by
  rcases file with _ | f
  · by_cases h3 : uid = "" <;>
      simp [uploadImage, uploadImageRoute, h3] at hq
  · by_cases h1 : acceptedFilename f.originalname = false
    · simp [uploadImage, h1] at hq
    · by_cases h2 : f.bufferSize > maxFileSize
      · simp [uploadImage, h1, h2] at hq
      · by_cases h3 : uid = ""
        · simp [uploadImage, uploadImageRoute, h1, h2, h3] at hq
        · by_cases h4 : f.bufferSize = 0
          · simp [uploadImage, uploadImageRoute, h1, h2, h3, h4] at hq
          · rcases hlk : db.users.lookup uid with _ | usr
            · simp [uploadImage, uploadImageRoute, h1, h2, h3, h4,
                getUserById, hlk] at hq
            · by_cases h5 : creditsInsufficient usr.credits = true
              · simp [uploadImage, uploadImageRoute, h1, h2, h3, h4,
                  getUserById, hlk, h5] at hq
              · by_cases h6 : jsStartsWith v visionRefusalText = true
                · simp [uploadImage, uploadImageRoute, h1, h2, h3, h4,
                    getUserById, hlk, h5, h6] at hq
                · rcases g with b | url
                  · cases b <;>
                      simp [uploadImage, uploadImageRoute, h1, h2, h3, h4,
                        getUserById, hlk, h5, h6] at hq <;>
                      exact hq
                  · rcases url with _ | url <;>
                      simp [uploadImage, uploadImageRoute, h1, h2, h3, h4,
                        getUserById, hlk, h5, h6, updateUserCredits,
                        saveGeneratedImage, saveTransaction] at hq <;>
                      exact hq

/-- Claim C4 witness: a run whose composed prompt is 823 characters over the
ceiling still submits that exact prompt to the generation call. -/
theorem c4_prompt_sent_unmodified_witness :
    (composeFinalPrompt longDescription "" "").length > MAX_PROMPT_LENGTH ∧
    ExtCall.generate c4Prompt ∈
      (uploadImage ⟨"u", "", "", none, some fileGood⟩ dbOne longDescription
        (GenOutcome.response (some "r")) "f").calls ∧
    c4Prompt = composeFinalPrompt longDescription "" "" := by
  set_option maxRecDepth 20000 in
  refine ⟨by decide, by decide, ?_⟩
  exact c4_prompt_sent_unmodified "u" "" "" none (some fileGood) dbOne
    longDescription (GenOutcome.response (some "r")) "f" c4Prompt
    (by set_option maxRecDepth 20000 in decide)
    (by set_option maxRecDepth 20000 in decide)

/-- Claim C2: every upload-image request that reaches a successful (200)
response leaves the balance of the user decreased by exactly 1, exactly one new
image record appended capturing prompt, enhanced prompt, description,
style, detail level, original-upload URL and result URL, and exactly one
new transaction of delta -1 and type image-transformation linked to the
id of the new image record. -/
theorem c2_upload_settlement (uid prompt style : String) (dl : Option Int)
    (file : Option FileUpload) (db : DB) (v : String) (g : GenOutcome)
    (u : String)
    (h : (uploadImage ⟨uid, prompt, style, dl, file⟩ db v g u).status = 200) :
    userBalance (uploadImage ⟨uid, prompt, style, dl, file⟩ db v g u).db uid =
      userBalance db uid - 1 ∧
    (∃ url,
      (uploadImage ⟨uid, prompt, style, dl, file⟩ db v g u).db.images =
        ⟨db.nextId, uid, jsStrOr prompt defaultUserPrompt,
          composeFinalPrompt v prompt style, v, u,
          jsStrOr style "ghibli-nature", jsNumOr dl 50, url⟩ :: db.images) ∧
    (uploadImage ⟨uid, prompt, style, dl, file⟩ db v g u).db.transactions =
      ⟨db.nextId + 1, uid, none, none, none, -1, "image-transformation",
        some db.nextId, some (jsStrOr prompt defaultUserPrompt)⟩ ::
        db.transactions := by
  rcases file with _ | f
  · by_cases h3 : uid = "" <;>
      simp [uploadImage, uploadImageRoute, h3] at h
  · by_cases h1 : acceptedFilename f.originalname = false
    · simp [uploadImage, h1] at h
    · by_cases h2 : f.bufferSize > maxFileSize
      · simp [uploadImage, h1, h2] at h
      · by_cases h3 : uid = ""
        · simp [uploadImage, uploadImageRoute, h1, h2, h3] at h
        · by_cases h4 : f.bufferSize = 0
          · simp [uploadImage, uploadImageRoute, h1, h2, h3, h4] at h
          · rcases hlk : db.users.lookup uid with _ | usr
            · simp [uploadImage, uploadImageRoute, h1, h2, h3, h4,
                getUserById, hlk] at h
            · by_cases h5 : creditsInsufficient usr.credits = true
              · simp [uploadImage, uploadImageRoute, h1, h2, h3, h4,
                  getUserById, hlk, h5] at h
              · by_cases h6 : jsStartsWith v visionRefusalText = true
                · simp [uploadImage, uploadImageRoute, h1, h2, h3, h4,
                    getUserById, hlk, h5, h6] at h
                · rcases g with b | url
                  · cases b <;>
                      simp [uploadImage, uploadImageRoute, h1, h2, h3, h4,
                        getUserById, hlk, h5, h6] at h
                  · rcases url with _ | url
                    · simp [uploadImage, uploadImageRoute, h1, h2, h3, h4,
                        getUserById, hlk, h5, h6] at h
                    · have hrep := lookup_replaceUser_self db.users uid
                        ⟨some (usr.credits.getD 0 + -1)⟩ (by simp [hlk])
                      refine ⟨?_, ⟨url, ?_⟩, ?_⟩ <;>
                        simp [uploadImage, uploadImageRoute, h1, h2, h3, h4,
                          getUserById, hlk, h5, h6, updateUserCredits,
                          saveGeneratedImage, saveTransaction, userBalance,
                          hrep] <;>
                        omega

/-- Claim C2 witness: a successful run of a funded user ends with the balance
decreased by exactly 1. -/
theorem c2_upload_settlement_witness :
    (uploadImage reqGood dbOne "A cat." (GenOutcome.response (some "r"))
        "f").status = 200 ∧
    userBalance (uploadImage reqGood dbOne "A cat."
        (GenOutcome.response (some "r")) "f").db "u" =
      userBalance dbOne "u" - 1 :=
  ⟨by decide,
    (c2_upload_settlement "u" "" "" none (some fileGood) dbOne "A cat."
      (GenOutcome.response (some "r")) "f" (by decide)).1⟩

end SpiritBE
